import Mathlib

set_option maxRecDepth 100000

/-!
Shallow embedding of the XRP price alert bot (src/main.py, src/api.py).

Python floats are modelled as exact rationals (`ℚ`); Python exceptions as
explicit `Except`/`Option` results; the aiohttp network boundary as an
explicit `FetchEnv` input describing the one outcome of the outbound
request a handler performs.  Handlers are state-passing functions on the
service's mutable fields (`alerts`, `current_price`).
-/

/-- Embedding of `PriceAlert` (src/main.py lines 22-27): pydantic model with fields
`symbol`, `threshold`, `condition`, `enabled`.  The `condition` field is a
plain `str` carrying only a human-readable description, so pydantic
performs no value validation on it. -/
structure PriceAlert where
  symbol : String
  threshold : ℚ
  condition : String
  enabled : Bool
deriving DecidableEq, Inhabited

/-- Round a rational to the nearest integer, ties to even: the rounding
used by Python's fixed-point float formatting (`:.2f`, `:.4f`). -/
def roundHalfEven (q : ℚ) : ℤ :=
  let fl := ⌊q⌋
  let frac := q - fl
  if frac < 1/2 then fl
  else if 1/2 < frac then fl + 1
  else if fl % 2 = 0 then fl else fl + 1

/-- Embedding of Python's fixed-point float format `{:.df}`: `d` digits
after the decimal point, rounding half to even. -/
def fmtFixed (d : Nat) (q : ℚ) : String :=
  let scaled := roundHalfEven (q * (10 : ℚ) ^ d)
  let sgn := if scaled < 0 then "-" else ""
  let n := scaled.natAbs
  let ip := n / 10 ^ d
  let fp := n % 10 ^ d
  let fpStr := toString fp
  let pad := String.mk (List.replicate (d - fpStr.length) '0')
  sgn ++ toString ip ++ "." ++ pad ++ fpStr

/-- Stand-in for Python's `str` on a float, used only inside the
human-readable message strings, which no claim inspects: renders the
rational. -/
def pyFloatStr (q : ℚ) : String := toString q

/-- A triggered-alert record as built by `check_alerts` (src/main.py lines
77-91).  The Python dict also carries `type` (always the literal string
`alert`) and `timestamp` (`datetime.now()`, nondeterministic); the
deterministic, claim-relevant fields are kept. -/
structure TriggeredAlert where
  price : ℚ
  threshold : ℚ
  message : String
deriving DecidableEq

/-- One iteration of the loop body of `XRPPriceService.check_alerts`
(src/main.py lines 72-91): skip a disabled alert, otherwise append a
triggered record when the alert's comparison holds at `price`. -/
def check_step (price : ℚ) (triggered : List TriggeredAlert) (alert : PriceAlert) :
    List TriggeredAlert :=
  if alert.enabled = false then triggered
  else if alert.condition = "greater_than" ∧ alert.threshold < price then
    triggered ++ [⟨price, alert.threshold,
      "🚨 XRP price crossed $" ++ pyFloatStr alert.threshold ++
        " (CURRENT: $" ++ fmtFixed 4 price ++ ")"⟩]
  else if alert.condition = "less_than" ∧ price < alert.threshold then
    triggered ++ [⟨price, alert.threshold,
      "🚨 XRP price dropped below $" ++ pyFloatStr alert.threshold ++
        " (CURRENT: $" ++ fmtFixed 4 price ++ ")"⟩]
  else triggered

/-- Embedding of `XRPPriceService.check_alerts` (src/main.py lines 69-92): fold the loop
body over the alert list, starting from the empty `triggered` list. -/
def check_alerts (alerts : List PriceAlert) (price : ℚ) : List TriggeredAlert :=
  alerts.foldl (check_step price) []

/-- Spec-side trigger predicate, written from the spec's words: an enabled
alert triggers exactly when `condition=greater_than` and
`price > threshold`, or `condition=less_than` and `price < threshold`. -/
def alertShouldTrigger (a : PriceAlert) (price : ℚ) : Bool :=
  a.enabled && ((a.condition == "greater_than" && decide (a.threshold < price))
    || (a.condition == "less_than" && decide (price < a.threshold)))

/-- The record `check_alerts` emits for a triggering alert (the message
text depends on the comparison direction). -/
def triggeredRecord (price : ℚ) (a : PriceAlert) : TriggeredAlert :=
  if a.condition = "greater_than" then
    ⟨price, a.threshold,
      "🚨 XRP price crossed $" ++ pyFloatStr a.threshold ++
        " (CURRENT: $" ++ fmtFixed 4 price ++ ")"⟩
  else
    ⟨price, a.threshold,
      "🚨 XRP price dropped below $" ++ pyFloatStr a.threshold ++
        " (CURRENT: $" ++ fmtFixed 4 price ++ ")"⟩

lemma check_alerts_go (price : ℚ) : ∀ (alerts : List PriceAlert) (acc : List TriggeredAlert),
    alerts.foldl (check_step price) acc =
      acc ++ (alerts.filter (fun a => alertShouldTrigger a price)).map (triggeredRecord price)
  | [], acc => by simp
  | a :: as, acc => by
    rw [List.foldl_cons, check_alerts_go price as]
    by_cases he : a.enabled
    · by_cases hgt : a.condition = "greater_than"
      · by_cases hcmp : a.threshold < price
        · simp [check_step, alertShouldTrigger, triggeredRecord, he, hgt, hcmp]
        · have hlt : ¬ a.condition = "less_than" := by simp [hgt]
          simp [check_step, alertShouldTrigger, he, hgt, hcmp, hlt]
      · by_cases hlt : a.condition = "less_than"
        · by_cases hcmp : price < a.threshold
          · simp [check_step, alertShouldTrigger, triggeredRecord, he, hgt, hlt, hcmp]
          · simp [check_step, alertShouldTrigger, he, hgt, hlt, hcmp]
        · simp [check_step, alertShouldTrigger, he, hgt, hlt]
    · simp [check_step, alertShouldTrigger, he]

/-- C1: `check_alerts price` produces exactly one triggered record for each
alert that is enabled and whose strict comparison holds at `price`, in the
insertion order of the alert list; an alert whose threshold equals the
price never triggers, and a disabled alert never triggers. -/
theorem check_alerts_characterization (alerts : List PriceAlert) (price : ℚ) (a : PriceAlert) :
    check_alerts alerts price =
      (alerts.filter (fun x => alertShouldTrigger x price)).map (triggeredRecord price)
  ∧ (a.threshold = price → alertShouldTrigger a price = false)
  ∧ (a.enabled = false → alertShouldTrigger a price = false) := by
  refine ⟨by simpa [check_alerts] using check_alerts_go price alerts [], ?_, ?_⟩
  · intro h
    simp [alertShouldTrigger, h]
  · intro h
    simp [alertShouldTrigger, h]

/-- Concrete run of C1: with one satisfied greater-than alert, one
unsatisfied less-than alert and one disabled alert, only the first alert
triggers; an equal-threshold alert and a disabled alert do not trigger. -/
theorem check_alerts_characterization_witness :
    check_alerts [⟨"xrpusd", 5/2, "greater_than", true⟩, ⟨"xrpusd", 2, "less_than", true⟩,
        ⟨"xrpusd", 9, "greater_than", false⟩] 3 =
      [⟨3, 5/2, "🚨 XRP price crossed $5/2 (CURRENT: $3.0000)"⟩]
  ∧ alertShouldTrigger ⟨"xrpusd", 3, "greater_than", true⟩ 3 = false
  ∧ alertShouldTrigger ⟨"xrpusd", 9, "greater_than", false⟩ 3 = false :=
  ⟨((check_alerts_characterization _ 3 ⟨"xrpusd", 3, "greater_than", true⟩).1).trans
    (by with_unfolding_all rfl),
   (check_alerts_characterization [] 3 ⟨"xrpusd", 3, "greater_than", true⟩).2.1 rfl,
   (check_alerts_characterization [] 3 ⟨"xrpusd", 9, "greater_than", false⟩).2.2 rfl⟩

/-- The full analysis dict built by `analyze_price_trend` when the series
has at least 2 elements (src/main.py lines 123-130). -/
structure FullTrend where
  trend : String
  confidence : ℚ
  change_pct : ℚ
  volatility : ℚ
  timeframe : String
  analysis : String
deriving DecidableEq

/-- The two dict shapes `analyze_price_trend` can return: the two-field
`{trend, confidence}` dict for short inputs, or the full dict. -/
inductive TrendDict where
  | short (trend : String) (confidence : ℚ)
  | full (r : FullTrend)
deriving DecidableEq

/-- Python's `max` over a list (never called on an empty list in this
code; the empty case is an arbitrary default). -/
def listMax : List ℚ → ℚ
  | [] => 0
  | x :: xs => xs.foldl max x

/-- Python's `min` over a list (never called on an empty list in this
code; the empty case is an arbitrary default). -/
def listMin : List ℚ → ℚ
  | [] => 0
  | x :: xs => xs.foldl min x

/-- Embedding of `AIPriceAnalyzer._generate_summary` (src/main.py lines 132-140): a
lookup of the trend label in a fixed dict of three templates, defaulting
to a pending-analysis message.  Note the neutral template interpolates the
signed `change_pct` and no volatility value. -/
def generate_summary (trend : String) (change_pct volatility : ℚ) : String :=
  let summaries : List (String × String) :=
    [("bullish", "📈 XRP is showing bullish momentum with " ++ fmtFixed 2 (abs change_pct) ++
        "% gain. Volatility: " ++ fmtFixed 4 volatility),
     ("bearish", "📉 XRP is trending bearish with " ++ fmtFixed 2 (abs change_pct) ++
        "% decline. Volatility: " ++ fmtFixed 4 volatility),
     ("neutral", "⚖️ XRP is consolidating with minimal movement (" ++ fmtFixed 2 change_pct ++
        "%). Low volatility environment.")]
  match summaries.lookup trend with
  | some s => s
  | none => "Market analysis pending"

/-- Embedding of `AIPriceAnalyzer.analyze_price_trend` (src/main.py lines 99-130).
`prices[0]` and `prices[-1]` become `head!`/`getLast!` (safe: the
short-input guard runs first).  Python's `change / prices[0]` raises
`ZeroDivisionError` when `prices[0] == 0`; the raise is modelled as
`none`, every normal return as `some`. -/
def analyze_price_trend (prices : List ℚ) (timeframe : String) : Option TrendDict :=
  if prices.length < 2 then some (TrendDict.short "unknown" 0)
  else if prices.head! = 0 then none
  else
    let change := prices.getLast! - prices.head!
    let change_pct := change / prices.head! * 100
    let volatility := listMax prices - listMin prices
    let tc : String × ℚ :=
      if change_pct > 2 then ("bullish", min (0.5 + change_pct / 10) 0.95)
      else if change_pct < -2 then ("bearish", min (0.5 + abs change_pct / 10) 0.95)
      else ("neutral", 0.7)
    some (TrendDict.full
      ⟨tc.1, tc.2, change_pct, volatility, timeframe, generate_summary tc.1 change_pct volatility⟩)

/-- Spec-side percentage change: `(prices[last] - prices[first]) /
prices[first] * 100`. -/
def changePct (prices : List ℚ) : ℚ :=
  (prices.getLast! - prices.head!) / prices.head! * 100

/-- Spec-side volatility: `max(prices) - min(prices)`. -/
def volatilityOf (prices : List ℚ) : ℚ :=
  listMax prices - listMin prices

/-- Spec-side trend classification of a percentage change. -/
def trendLabel (cp : ℚ) : String :=
  if cp > 2 then "bullish" else if cp < -2 then "bearish" else "neutral"

/-- Spec-side confidence: `min(0.5 + change_pct/10, 0.95)` for bullish,
`min(0.5 + |change_pct|/10, 0.95)` for bearish, a fixed `0.7` for
neutral. -/
def confidenceOf (cp : ℚ) : ℚ :=
  if cp > 2 then min (0.5 + cp / 10) 0.95
  else if cp < -2 then min (0.5 + abs cp / 10) 0.95
  else 0.7

lemma analyze_full_eq (prices : List ℚ) (tf : String) (h2 : 2 ≤ prices.length)
    (h0 : prices.head! ≠ 0) :
    analyze_price_trend prices tf =
      some (TrendDict.full ⟨trendLabel (changePct prices), confidenceOf (changePct prices),
        changePct prices, volatilityOf prices, tf,
        generate_summary (trendLabel (changePct prices)) (changePct prices)
          (volatilityOf prices)⟩) := by
  have hlen : ¬ prices.length < 2 := by omega
  unfold analyze_price_trend
  rw [if_neg hlen, if_neg h0]
  show some (TrendDict.full _) = some (TrendDict.full _)
  unfold changePct volatilityOf trendLabel confidenceOf
  by_cases hb : (prices.getLast! - prices.head!) / prices.head! * 100 > 2
  · simp only [if_pos hb]
  · by_cases hr : (prices.getLast! - prices.head!) / prices.head! * 100 < -2
    · simp only [if_neg hb, if_pos hr]
    · simp only [if_neg hb, if_neg hr]

/-- C2: for a series of length at least 2 with nonzero first element,
`analyze_price_trend` returns the full dict whose `change_pct` is
`(prices[last] - prices[first]) / prices[first] * 100`, whose `volatility`
is `max(prices) - min(prices)`, and whose trend and confidence follow the
three-branch classification (`> 2` bullish with confidence
`min(0.5 + change_pct/10, 0.95)`, `< -2` bearish with confidence
`min(0.5 + |change_pct|/10, 0.95)`, otherwise neutral with confidence
exactly `0.7`). -/
theorem analyze_price_trend_spec (prices : List ℚ) (tf : String) (h2 : 2 ≤ prices.length)
    (h0 : prices.head! ≠ 0) :
    analyze_price_trend prices tf =
      some (TrendDict.full ⟨trendLabel (changePct prices), confidenceOf (changePct prices),
        changePct prices, volatilityOf prices, tf,
        generate_summary (trendLabel (changePct prices)) (changePct prices)
          (volatilityOf prices)⟩) :=
  analyze_full_eq prices tf h2 h0

/-- Concrete run of C2: `analyze_price_trend [100, 103]` yields
`change_pct = 3`, trend bullish, confidence `0.8`. -/
theorem analyze_price_trend_spec_witness :
    analyze_price_trend [100, 103] "1h" =
      some (TrendDict.full ⟨trendLabel (changePct [100, 103]),
        confidenceOf (changePct [100, 103]), changePct [100, 103],
        volatilityOf [100, 103], "1h",
        generate_summary (trendLabel (changePct [100, 103])) (changePct [100, 103])
          (volatilityOf [100, 103])⟩)
  ∧ changePct [100, 103] = 3
  ∧ trendLabel 3 = "bullish"
  ∧ confidenceOf 3 = 0.8 :=
  ⟨analyze_price_trend_spec [100, 103] "1h" (by decide) (by norm_num),
   by with_unfolding_all rfl, by with_unfolding_all rfl, by with_unfolding_all rfl⟩

/-- C7: a series with fewer than 2 elements yields exactly the two-field
dict with trend unknown and confidence 0, and nothing else. -/
theorem analyze_price_trend_short (prices : List ℚ) (tf : String) (h : prices.length < 2) :
    analyze_price_trend prices tf = some (TrendDict.short "unknown" 0) := by
  unfold analyze_price_trend
  rw [if_pos h]

/-- Concrete runs of C7 on the empty and a one-element series. -/
theorem analyze_price_trend_short_witness :
    analyze_price_trend [] "1h" = some (TrendDict.short "unknown" 0)
  ∧ analyze_price_trend [5] "1h" = some (TrendDict.short "unknown" 0) :=
  ⟨analyze_price_trend_short [] "1h" (by decide),
   analyze_price_trend_short [5] "1h" (by decide)⟩

/-- C8 counterexample: two runs with the same trend label (neutral), the
same absolute percentage change and the same volatility produce different
analysis strings, and the neutral analysis string ignores the volatility
value entirely — so the neutral template does not interpolate the absolute
percentage change and the volatility as the claim states. -/
theorem analysis_neutral_counterexample :
    analyze_price_trend [100, 99] "1h" =
      some (TrendDict.full ⟨"neutral", 0.7, -1, 1, "1h",
        "⚖️ XRP is consolidating with minimal movement (-1.00%). Low volatility environment."⟩)
  ∧ analyze_price_trend [100, 101] "1h" =
      some (TrendDict.full ⟨"neutral", 0.7, 1, 1, "1h",
        "⚖️ XRP is consolidating with minimal movement (1.00%). Low volatility environment."⟩)
  ∧ abs (-1 : ℚ) = abs (1 : ℚ)
  ∧ "⚖️ XRP is consolidating with minimal movement (-1.00%). Low volatility environment."
      ≠ "⚖️ XRP is consolidating with minimal movement (1.00%). Low volatility environment."
  ∧ generate_summary "neutral" 1 1 = generate_summary "neutral" 1 999 :=
  ⟨by with_unfolding_all rfl, by with_unfolding_all rfl, by norm_num, by decide,
   by with_unfolding_all rfl⟩

/-- C8 as amended: for a series of length at least 2 with nonzero first
element, the analysis string of the result is selected by the trend label
from the fixed three-template set; the bullish and bearish templates
interpolate the absolute percentage change and the volatility, while the
neutral template interpolates the signed percentage change and no
volatility value. -/
theorem generate_summary_templates (prices : List ℚ) (tf : String) (cp vol : ℚ)
    (h2 : 2 ≤ prices.length) (h0 : prices.head! ≠ 0) :
    analyze_price_trend prices tf =
      some (TrendDict.full ⟨trendLabel (changePct prices), confidenceOf (changePct prices),
        changePct prices, volatilityOf prices, tf,
        generate_summary (trendLabel (changePct prices)) (changePct prices)
          (volatilityOf prices)⟩)
  ∧ generate_summary "bullish" cp vol =
      "📈 XRP is showing bullish momentum with " ++ fmtFixed 2 (abs cp) ++
        "% gain. Volatility: " ++ fmtFixed 4 vol
  ∧ generate_summary "bearish" cp vol =
      "📉 XRP is trending bearish with " ++ fmtFixed 2 (abs cp) ++
        "% decline. Volatility: " ++ fmtFixed 4 vol
  ∧ generate_summary "neutral" cp vol =
      "⚖️ XRP is consolidating with minimal movement (" ++ fmtFixed 2 cp ++
        "%). Low volatility environment." :=
  ⟨analyze_full_eq prices tf h2 h0, rfl, rfl, rfl⟩

/-- Concrete run of the amended C8 at `[100, 103]` with a negative sample
percentage and a sample volatility. -/
theorem generate_summary_templates_witness :
    analyze_price_trend [100, 103] "1h" =
      some (TrendDict.full ⟨trendLabel (changePct [100, 103]),
        confidenceOf (changePct [100, 103]), changePct [100, 103],
        volatilityOf [100, 103], "1h",
        generate_summary (trendLabel (changePct [100, 103])) (changePct [100, 103])
          (volatilityOf [100, 103])⟩)
  ∧ generate_summary "bullish" (-1) 7 =
      "📈 XRP is showing bullish momentum with " ++ fmtFixed 2 (abs (-1)) ++
        "% gain. Volatility: " ++ fmtFixed 4 7
  ∧ generate_summary "bearish" (-1) 7 =
      "📉 XRP is trending bearish with " ++ fmtFixed 2 (abs (-1)) ++
        "% decline. Volatility: " ++ fmtFixed 4 7
  ∧ generate_summary "neutral" (-1) 7 =
      "⚖️ XRP is consolidating with minimal movement (" ++ fmtFixed 2 (-1) ++
        "%). Low volatility environment." :=
  generate_summary_templates [100, 103] "1h" (-1) 7 (by decide) (by norm_num)

/-- The service's mutable fields (src/main.py lines 33-37): the ordered
alert list and the last observed price. -/
structure ServiceState where
  alerts : List PriceAlert
  current_price : Option ℚ
deriving DecidableEq

/-- One element of the JSON array returned by the price endpoint: its
`price` field when present (`none` makes `data[0]["price"]` raise
`KeyError`, which the fetch absorbs). -/
structure JsonItem where
  price : Option ℚ
deriving DecidableEq, Inhabited

/-- Outcome of the one outbound GET a fetch performs: either a raised
exception (connection error or timeout), or a response with a status code
and a body whose JSON decoding yields an array (`Except.error` models a
`.json()` call that raises, or a non-array payload whose subscripting
raises). -/
inductive FetchEnv where
  | raises
  | responds (status : Nat) (body : Except Unit (List JsonItem))

/-- Embedding of `XRPPriceService.get_historical_price` (src/main.py lines 53-67): the
whole body sits in a `try` whose `except` logs and falls through to
`return None`, so every exception path yields `none`; a 200 response with
a non-empty array stores the first element's price as `current_price` and
returns that same value. -/
def get_historical_price (env : FetchEnv) (st : ServiceState) : ServiceState × Option ℚ :=
  match env with
  | FetchEnv.raises => (st, none)
  | FetchEnv.responds status body =>
    if status = 200 then
      match body with
      | Except.error _ => (st, none)
      | Except.ok data =>
        if 0 < data.length then
          match data.head!.price with
          | some p => (⟨st.alerts, some p⟩, some p)
          | none => (st, none)
        else (st, none)
    else (st, none)

/-- Spec-side fetch behaviour, written from the spec's words: on success
with a non-empty JSON array response, extract the first element's price
field, store it as current price and return it; on any network error,
timeout, or malformed/empty response return an absent value. -/
def fetchPriceSpec (env : FetchEnv) (st : ServiceState) : ServiceState × Option ℚ :=
  match env with
  | FetchEnv.responds 200 (Except.ok (d :: _)) =>
    match d.price with
    | some p => (⟨st.alerts, some p⟩, some p)
    | none => (st, none)
  | _ => (st, none)

/-- C5: the fetch is total on every environment outcome (no exception
reaches the caller) and agrees everywhere with the spec-side description:
absent on every failure, and on a 200 non-empty-array response it stores
the first element's price and returns that same value. -/
theorem get_historical_price_spec (env : FetchEnv) (st : ServiceState) :
    get_historical_price env st = fetchPriceSpec env st := by
  cases env with
  | raises => rfl
  | responds status body =>
    by_cases hs : status = 200
    · subst hs
      cases body with
      | error e => rfl
      | ok data =>
        cases data with
        | nil => rfl
        | cons d rest =>
          cases hp : d.price with
          | none =>
            simp [get_historical_price, fetchPriceSpec, hp]
          | some p =>
            simp [get_historical_price, fetchPriceSpec, hp]
    · simp only [get_historical_price, fetchPriceSpec]
      rw [if_neg hs]
      split
      · next d rest heq =>
        injection heq with h1 h2
        exact absurd h1 hs
      · rfl

/-- A raised Python exception that reaches the HTTP layer, as an
`HTTPException` with a status code and a detail string. -/
inductive PyExc where
  | http (status : Nat) (detail : String)
deriving DecidableEq

/-- Starlette renders an `HTTPException` as the string
`"{status_code}: {detail}"`; this is the `str(e)` the blanket handler
interpolates. -/
def strOfExc : PyExc → String
  | PyExc.http status detail => toString status ++ ": " ++ detail

/-- Embedding of `AlertConfig` (src/api.py lines 44-49): the request body of
`POST /alerts`. -/
structure AlertConfig where
  symbol : String
  threshold : ℚ
  condition : String
  enabled : Bool

/-- Embedding of `AlertResponse` (src/api.py lines 52-56). -/
structure AlertResponse where
  success : Bool
  alert : PriceAlert
  message : String
deriving DecidableEq

/-- Body of the `try` block of `configure_alert` (src/api.py lines
105-126): raise a 400 `HTTPException` when the condition is not one of the
two recognized strings, otherwise construct the alert, append it to the
service's list and return the success response. -/
def configure_alert_try (alerts : List PriceAlert) (cfg : AlertConfig) :
    Except PyExc (AlertResponse × List PriceAlert) :=
  if (["greater_than", "less_than"].contains cfg.condition) = false then
    Except.error (PyExc.http 400 "Invalid condition")
  else
    let alert : PriceAlert := ⟨cfg.symbol, cfg.threshold, cfg.condition, cfg.enabled⟩
    Except.ok (⟨true, alert,
      "Alert configured: XRP " ++ alert.condition ++ " $" ++ pyFloatStr alert.threshold⟩,
      alerts ++ [alert])

/-- Embedding of `configure_alert` (src/api.py lines 102-128): the `try` body wrapped in
`except Exception as e: raise HTTPException(500, str(e))`.  The explicitly
raised 400 `HTTPException` is itself an `Exception`, so the blanket
handler catches it and re-raises it with status 500. -/
def configure_alert (alerts : List PriceAlert) (cfg : AlertConfig) :
    Except PyExc AlertResponse × List PriceAlert :=
  match configure_alert_try alerts cfg with
  | Except.ok (resp, alertsNew) => (Except.ok resp, alertsNew)
  | Except.error e => (Except.error (PyExc.http 500 (strOfExc e)), alerts)

/-- C3 (code defect): a `POST /alerts` body carrying the unrecognized
condition `equals` is answered with status 500 — the explicitly raised 400
is caught by the handler's own blanket `except Exception` and re-raised as
a 500 whose detail embeds the original — while a recognized condition
appends the created alert and reports success. -/
theorem configure_alert_invalid_condition_500 :
    (configure_alert [] ⟨"xrpusd", 1, "equals", true⟩).1 =
      Except.error (PyExc.http 500 "400: Invalid condition")
  ∧ (configure_alert [] ⟨"xrpusd", 1, "equals", true⟩).2 = []
  ∧ configure_alert [] ⟨"xrpusd", 5/2, "greater_than", true⟩ =
      (Except.ok ⟨true, ⟨"xrpusd", 5/2, "greater_than", true⟩,
        "Alert configured: XRP greater_than $5/2"⟩,
       [⟨"xrpusd", 5/2, "greater_than", true⟩]) :=
  ⟨by with_unfolding_all rfl, by with_unfolding_all rfl, by with_unfolding_all rfl⟩

/-- Pydantic construction of `PriceAlert` (src/main.py lines 22-27): the
model declares `condition : str` with only a human-readable description
and no validator or restricted type, so construction never rejects a
condition value. -/
def PriceAlert.validate (symbol : String) (threshold : ℚ) (condition : String)
    (enabled : Bool) : Except PyExc PriceAlert :=
  Except.ok ⟨symbol, threshold, condition, enabled⟩

/-- C4 counterexample: constructing a `PriceAlert` whose condition is the
string `banana` — neither recognized value — succeeds, and the constructed
alert carries that condition verbatim. -/
theorem priceAlert_construction_accepts_any :
    PriceAlert.validate "xrpusd" 1 "banana" true = Except.ok ⟨"xrpusd", 1, "banana", true⟩
  ∧ ("banana" : String) ≠ "greater_than"
  ∧ ("banana" : String) ≠ "less_than" :=
  ⟨rfl, by decide, by decide⟩

/-- C4 as amended: `PriceAlert` construction succeeds for every condition
string and stores it verbatim; the two-value restriction is enforced only
by the `POST /alerts` handler, which answers any other condition with an
error response and leaves the alert list unchanged. -/
theorem priceAlert_validation_at_handler (s : String) (t : ℚ) (c : String) (e : Bool)
    (alerts : List PriceAlert) (hc : c ≠ "greater_than" ∧ c ≠ "less_than") :
    PriceAlert.validate s t c e = Except.ok ⟨s, t, c, e⟩
  ∧ (configure_alert alerts ⟨s, t, c, e⟩).2 = alerts
  ∧ (configure_alert alerts ⟨s, t, c, e⟩).1 =
      Except.error (PyExc.http 500 (strOfExc (PyExc.http 400 "Invalid condition"))) := by
  have hrun : configure_alert alerts ⟨s, t, c, e⟩ =
      (Except.error (PyExc.http 500 (strOfExc (PyExc.http 400 "Invalid condition"))), alerts) := by
    simp [configure_alert, configure_alert_try, hc.1, hc.2]
  exact ⟨rfl, by rw [hrun], by rw [hrun]⟩

/-- Concrete run of the amended C4 with the condition `banana`. -/
theorem priceAlert_validation_at_handler_witness :
    PriceAlert.validate "xrpusd" 1 "banana" true = Except.ok ⟨"xrpusd", 1, "banana", true⟩
  ∧ (configure_alert [] ⟨"xrpusd", 1, "banana", true⟩).2 = []
  ∧ (configure_alert [] ⟨"xrpusd", 1, "banana", true⟩).1 =
      Except.error (PyExc.http 500 (strOfExc (PyExc.http 400 "Invalid condition"))) :=
  priceAlert_validation_at_handler "xrpusd" 1 "banana" true [] ⟨by decide, by decide⟩

/-- Embedding of `DeleteResponse`: the confirmation dict of `delete_alert`
(src/api.py lines 157-160). -/
structure DeleteResponse where
  success : Bool
  message : String
deriving DecidableEq

/-- Embedding of `delete_alert` (src/api.py lines 149-160): a 404 `HTTPException` when
the integer path index is negative or at least the list length, otherwise
`alerts.pop(index)` removes that position and the handler confirms. -/
def delete_alert (alerts : List PriceAlert) (alert_index : ℤ) :
    Except PyExc DeleteResponse × List PriceAlert :=
  if alert_index < 0 ∨ (alerts.length : ℤ) ≤ alert_index then
    (Except.error (PyExc.http 404 "Alert not found"), alerts)
  else
    let deleted := alerts.get! alert_index.toNat
    (Except.ok ⟨true, "Alert deleted: " ++ deleted.symbol ++ " " ++ deleted.condition ++
      " $" ++ pyFloatStr deleted.threshold⟩,
     alerts.eraseIdx alert_index.toNat)

/-- C6: DELETE on an index that is negative or not below the list length
answers 404 and leaves the alert list exactly unchanged; an in-range index
removes precisely the alert at that position — the new list is the prefix
before it followed by the suffix after it, in order — and confirms the
deletion. -/
theorem delete_alert_spec (alerts : List PriceAlert) (idx : ℤ) :
    delete_alert alerts idx =
      if idx < 0 ∨ (alerts.length : ℤ) ≤ idx then
        (Except.error (PyExc.http 404 "Alert not found"), alerts)
      else
        (Except.ok ⟨true, "Alert deleted: " ++ (alerts.get! idx.toNat).symbol ++ " " ++
            (alerts.get! idx.toNat).condition ++ " $" ++
            pyFloatStr (alerts.get! idx.toNat).threshold⟩,
         alerts.take idx.toNat ++ alerts.drop (idx.toNat + 1)) := by
  by_cases h : idx < 0 ∨ (alerts.length : ℤ) ≤ idx
  · simp [delete_alert, h]
  · simp [delete_alert, h, List.eraseIdx_eq_take_drop_succ]

/-- The synthetic price history `POST /analyze` builds from the fetched
price (src/api.py line 194):
`[price * (1 + (i - 50) * 0.001) for i in range(100)]`. -/
def syntheticPrices (price : ℚ) : List ℚ :=
  (List.range 100).map (fun i => price * (1 + ((i : ℚ) - 50) * 0.001))

/-- Embedding of `analyze_price` (src/api.py lines 182-200): fetch the price, answer
500 when it is absent or zero (`if not price`), otherwise run the analyzer
over the synthetic series.  A `none` from the analyzer would be an
uncaught `ZeroDivisionError` surfacing as a 500 (unreachable here: the
synthetic series starts at `price * 0.95`, nonzero whenever the fetched
price is). -/
def analyze_price (env : FetchEnv) (st : ServiceState) :
    Except PyExc TrendDict × ServiceState :=
  let r := get_historical_price env st
  match r.2 with
  | none => (Except.error (PyExc.http 500 "Failed to fetch price"), r.1)
  | some p =>
    if p = 0 then (Except.error (PyExc.http 500 "Failed to fetch price"), r.1)
    else
      match analyze_price_trend (syntheticPrices p) "1h" with
      | some d => (Except.ok d, r.1)
      | none => (Except.error (PyExc.http 500 "ZeroDivisionError"), r.1)

lemma syntheticPrices_head (p : ℚ) :
    (syntheticPrices p).head! = p * (1 + ((0 : ℚ) - 50) * 0.001) := by
  with_unfolding_all rfl

lemma syntheticPrices_getLast (p : ℚ) :
    (syntheticPrices p).getLast! = p * (1 + ((99 : ℚ) - 50) * 0.001) := by
  with_unfolding_all rfl

lemma changePct_synthetic (p : ℚ) (hp : p ≠ 0) :
    changePct (syntheticPrices p) = 198/19 := by
  unfold changePct
  rw [syntheticPrices_head, syntheticPrices_getLast]
  have h1 : (1 + ((0 : ℚ) - 50) * 0.001) = 19/20 := by norm_num
  have h2 : (1 + ((99 : ℚ) - 50) * 0.001) = 1049/1000 := by norm_num
  rw [h1, h2]
  field_simp
  ring

/-- C9: the analyze endpoint's result does not depend on the fetched
price.  For every fetch outcome yielding a positive price `p`, the
synthetic series' percentage change is exactly `198/19`
(`(1.049 - 0.95) / 0.95 * 100`, about 10.42), independent of `p`, so the
response is always bullish with confidence 0.95. -/
theorem analyze_price_independent (env : FetchEnv) (st : ServiceState) (p : ℚ)
    (hp : (get_historical_price env st).2 = some p) (hpos : 0 < p) :
    (analyze_price env st).1 = Except.ok (TrendDict.full
      ⟨"bullish", 0.95, 198/19, volatilityOf (syntheticPrices p), "1h",
        generate_summary "bullish" (198/19) (volatilityOf (syntheticPrices p))⟩) := by
  have hp0 : p ≠ 0 := ne_of_gt hpos
  have hcp := changePct_synthetic p hp0
  have hlen100 : (syntheticPrices p).length = 100 := by with_unfolding_all rfl
  have hlen : 2 ≤ (syntheticPrices p).length := by
    rw [hlen100]
    norm_num
  have hhead : (syntheticPrices p).head! ≠ 0 := by
    rw [syntheticPrices_head]
    intro hcontra
    rcases mul_eq_zero.mp hcontra with h | h
    · exact hp0 h
    · norm_num at h
  have htrend : trendLabel (198/19) = "bullish" := by
    unfold trendLabel
    rw [if_pos (by norm_num)]
  have hconf : confidenceOf (198/19) = 0.95 := by
    unfold confidenceOf
    rw [if_pos (by norm_num), min_eq_right (by norm_num)]
  have hfull := analyze_full_eq (syntheticPrices p) "1h" hlen hhead
  rw [hcp, htrend, hconf] at hfull
  simp only [analyze_price, hp, hfull]
  rw [if_neg hp0]

/-- Concrete run of C9: a 200 response carrying price 1, and the resulting
bullish 0.95 analysis. -/
theorem analyze_price_independent_witness :
    (analyze_price (FetchEnv.responds 200 (Except.ok [⟨some 1⟩])) ⟨[], none⟩).1 =
      Except.ok (TrendDict.full
        ⟨"bullish", 0.95, 198/19, volatilityOf (syntheticPrices 1), "1h",
          generate_summary "bullish" (198/19) (volatilityOf (syntheticPrices 1))⟩) :=
  analyze_price_independent (FetchEnv.responds 200 (Except.ok [⟨some 1⟩])) ⟨[], none⟩ 1
    (by with_unfolding_all rfl) (by norm_num)

/-- Whether an analyzer run returned normally with the full dict. -/
def isFullResult : Option TrendDict → Bool
  | some (TrendDict.full _) => true
  | _ => false

/-- C10: the division by the first price is unguarded: every series of
length at least 2 with nonzero first element yields a full result, while
the series `[0, 1]` makes `change / prices[0]` raise `ZeroDivisionError`
(modelled as `none`) instead of returning a result. -/
theorem analyze_divzero (prices : List ℚ) (tf : String) (h2 : 2 ≤ prices.length)
    (h0 : prices.head! ≠ 0) :
    isFullResult (analyze_price_trend prices tf) = true
  ∧ analyze_price_trend [0, 1] "1h" = none := by
  refine ⟨?_, by with_unfolding_all rfl⟩
  rw [analyze_full_eq prices tf h2 h0]
  rfl

/-- Concrete run of C10 at `[100, 103]` (defined) and `[0, 1]` (fails). -/
theorem analyze_divzero_witness :
    isFullResult (analyze_price_trend [100, 103] "1h") = true
  ∧ analyze_price_trend [0, 1] "1h" = none :=
  analyze_divzero [100, 103] "1h" (by decide) (by norm_num)
